import Mathlib

/-!
Shallow embedding of the example programs of the EffectivePython notebook
repository, together with proofs of the behavioural properties claimed of
them.  Each notebook's example code is translated into executable Lean
definitions (Python floats become rationals with an explicit `inf` value,
Python exceptions become an error type carried by `Except`, mutable
dictionaries become an explicit store indexed by allocation order), and the
claims are settled as theorems about those definitions.
-/

namespace EffectivePython

/-- The Python exceptions raised by the example code. -/
inductive PyExn where
  | typeError
  | zeroDivisionError
  | overflowError
  | keyError
  | valueError
  | assertionError
  deriving DecidableEq, Repr

/-! ## v16: `index_words` versus `index_words_iter`

`index_words` builds the word-start index list imperatively: `result = []`,
`result.append(0)` when `text` is truthy, then for every `(index, letter)`
in `enumerate(text)` it appends `index + 1` when `letter == ' '`.  The
`for` loop is translated as a tail recursion carrying `result`. -/

/-- The body of `index_words`'s `for index, letter in enumerate(text)` loop:
`result` is the accumulated list, `index` the current enumeration index. -/
def index_words_loop (result : List Nat) (index : Nat) : List Char → List Nat
  | [] => result
  | letter :: rest =>
      index_words_loop (if letter = ' ' then result ++ [index + 1] else result)
        (index + 1) rest

/-- `index_words(text)` from v16: returns the list of word-start indexes. -/
def index_words (text : String) : List Nat :=
  index_words_loop (if text = "" then [] else [0]) 0 text.toList

/-- The generator part of `index_words_iter` after the initial `yield 0`:
the list of values yielded by the `for index, letter in enumerate(text)`
loop, starting at enumeration index `index`. -/
def index_words_iter_gen (index : Nat) : List Char → List Nat
  | [] => []
  | letter :: rest =>
      (if letter = ' ' then [index + 1] else []) ++
        index_words_iter_gen (index + 1) rest

/-- `list(index_words_iter(text))` from v16: `yield 0` when `text` is
truthy, then `yield index + 1` at every space. -/
def index_words_iter (text : String) : List Nat :=
  (if text = "" then [] else [0]) ++ index_words_iter_gen 0 text.toList

theorem index_words_loop_eq (cs : List Char) :
    ∀ (result : List Nat) (index : Nat),
      index_words_loop result index cs = result ++ index_words_iter_gen index cs := by
  induction cs with
  | nil => intro result index; simp [index_words_loop, index_words_iter_gen]
  | cons letter rest ih =>
      intro result index
      by_cases h : letter = ' ' <;>
        simp [index_words_loop, index_words_iter_gen, h, ih, List.append_assoc]

/-- C8: the generator `index_words_iter` produces exactly the list built by
the list-returning `index_words`, for every input string. -/
theorem index_words_iter_refines_index_words (text : String) :
    index_words_iter text = index_words text := by
  unfold index_words_iter index_words
  rw [index_words_loop_eq]

example : index_words "Four score and seven years ago..." = [0, 5, 11, 15, 21, 27] := by decide

/-! ## Item 21 notebook: `safe_division` / `safe_division_b` / `safe_division_c`

Python floats are modelled as rationals extended with `inf` (the value of
`float('inf')`).  The expression `number / divisor` raises
`ZeroDivisionError` when the divisor is zero, and `OverflowError` when an
operand cannot be converted to a float (as for `10**500`); the latter is a
property of the float representation, so the embedding carries it as an
explicit `overflow` flag for the division. -/

/-- A Python float value: a finite rational or `float('inf')`.
(`safe_division` returns the int `0` on ignored overflow; its numeric value
is the rational `0`.) -/
inductive PyFloat where
  | val (q : ℚ)
  | inf
  deriving DecidableEq, Repr

/-- `number / divisor`: `OverflowError` when the operands overflow the
float conversion (the `overflow` flag), `ZeroDivisionError` when
`divisor = 0`, otherwise the quotient. -/
def pyDivide (number divisor : ℚ) (overflow : Bool) : Except PyExn PyFloat :=
  if overflow then .error .overflowError
  else if divisor = 0 then .error .zeroDivisionError
  else .ok (.val (number / divisor))

/-- `safe_division` (Example 1): `try: return number / divisor` with
`except OverflowError` returning `0` when `ignore_overflow`, and
`except ZeroDivisionError` returning `float('inf')` when
`ignore_zero_division`; otherwise the exception is re-raised. -/
def safe_division (number divisor : ℚ) (overflow : Bool)
    (ignore_overflow ignore_zero_division : Bool) : Except PyExn PyFloat :=
  match pyDivide number divisor overflow with
  | .ok v => .ok v
  | .error .overflowError =>
      if ignore_overflow then .ok (.val 0) else .error .overflowError
  | .error .zeroDivisionError =>
      if ignore_zero_division then .ok .inf else .error .zeroDivisionError
  | .error e => .error e

/-- `safe_division_b` (Example 4): same body as `safe_division`, flags are
keyword arguments defaulting to `False`. -/
def safe_division_b (number divisor : ℚ) (overflow : Bool)
    (ignore_overflow ignore_zero_division : Bool) : Except PyExn PyFloat :=
  match pyDivide number divisor overflow with
  | .ok v => .ok v
  | .error .overflowError =>
      if ignore_overflow then .ok (.val 0) else .error .overflowError
  | .error .zeroDivisionError =>
      if ignore_zero_division then .ok .inf else .error .zeroDivisionError
  | .error e => .error e

/-- The body of `safe_division_c` (Example 7), identical to
`safe_division`'s. -/
def safe_division_c (number divisor : ℚ) (overflow : Bool)
    (ignore_overflow ignore_zero_division : Bool) : Except PyExn PyFloat :=
  match pyDivide number divisor overflow with
  | .ok v => .ok v
  | .error .overflowError =>
      if ignore_overflow then .ok (.val 0) else .error .overflowError
  | .error .zeroDivisionError =>
      if ignore_zero_division then .ok .inf else .error .zeroDivisionError
  | .error e => .error e

/-- Calling `safe_division_c(*pos, **flags)`: after the bare `*` in the
signature, only `number` and `divisor` may be passed positionally, so any
other number of positional arguments raises `TypeError`; the keyword-only
flags default to `False` when absent. -/
def safe_division_c_call (pos : List ℚ) (overflow : Bool)
    (ignore_overflow ignore_zero_division : Option Bool) : Except PyExn PyFloat :=
  match pos with
  | [number, divisor] =>
      safe_division_c number divisor overflow
        (ignore_overflow.getD false) (ignore_zero_division.getD false)
  | _ => .error .typeError

/-- C9: `safe_division_c` accepts its flags only as keywords and handles
division errors per its flags: more than two positional arguments raise
`TypeError`; with a zero divisor it returns `float('inf')` when
`ignore_zero_division=True` and raises `ZeroDivisionError` at the default
flags; and with a nonzero divisor (and no `OverflowError`) it returns
`number / divisor`. -/
theorem safe_division_c_keyword_only :
    (∀ (pos : List ℚ) (ov : Bool) (io izd : Option Bool), pos.length > 2 →
        safe_division_c_call pos ov io izd = .error .typeError) ∧
    (∀ n : ℚ, safe_division_c_call [n, 0] false none (some true) = .ok .inf) ∧
    (∀ n : ℚ, safe_division_c_call [n, 0] false none none = .error .zeroDivisionError) ∧
    (∀ n d : ℚ, d ≠ 0 → ∀ io izd : Option Bool,
        safe_division_c_call [n, d] false io izd = .ok (.val (n / d))) := by
  refine ⟨?_, ?_, ?_, ?_⟩
  · intro pos ov io izd h
    match pos with
    | [] => simp at h
    | [a] => simp at h
    | [a, b] => simp at h
    | a :: b :: c :: rest => rfl
  · intro n
    simp [safe_division_c_call, safe_division_c, pyDivide]
  · intro n
    simp [safe_division_c_call, safe_division_c, pyDivide]
  · intro n d hd io izd
    cases io <;> cases izd <;>
      simp [safe_division_c_call, safe_division_c, pyDivide, hd]

/-- Witness for C9: the notebook's own calls —
`safe_division_c(1.0, 10**500, True, False)` (four positional arguments)
raises `TypeError`; `safe_division_c(1.0, 0, ignore_zero_division=True)`
returns `inf`; `safe_division_c(1.0, 0)` raises `ZeroDivisionError`; and
`safe_division_c(1.0, 2)` returns `0.5`. -/
theorem safe_division_c_keyword_only_witness :
    safe_division_c_call [1, 10 ^ 500, 1, 0] true none none = .error .typeError ∧
    safe_division_c_call [1, 0] false none (some true) = .ok .inf ∧
    safe_division_c_call [1, 0] false none none = .error .zeroDivisionError ∧
    safe_division_c_call [1, 2] false none none = .ok (.val (1 / 2)) :=
  ⟨safe_division_c_keyword_only.1 [1, 10 ^ 500, 1, 0] true none none (by simp),
   safe_division_c_keyword_only.2.1 1,
   safe_division_c_keyword_only.2.2.1 1,
   safe_division_c_keyword_only.2.2.2 1 2 (by norm_num) none none⟩

/-! ## v13: `load_json_key`

`json.loads` is modelled for the inputs the notebook uses: flat JSON
objects whose keys and values are string literals.  Any other input fails
to parse (`ValueError`), exactly as `'{"foo": bad payload'` does. -/

/-- Drop leading spaces. -/
def skipSpaces (cs : List Char) : List Char := cs.dropWhile (fun c => c = ' ')

/-- Scan the body of a string literal up to the closing quote; returns the
body and the remaining input, or `none` when the quote never closes. -/
def scanStrBody : List Char → Option (List Char × List Char)
  | [] => none
  | c :: rest =>
      if c = '"' then some ([], rest)
      else
        match scanStrBody rest with
        | some (body, rem) => some (c :: body, rem)
        | none => none

/-- Scan a quoted string literal. -/
def scanStringLit (cs : List Char) : Option (String × List Char) :=
  match cs with
  | '"' :: rest =>
      match scanStrBody rest with
      | some (body, rem) => some (String.mk body, rem)
      | none => none
  | _ => none

/-- Parse `"key": "value"` members separated by commas, up to the closing
brace; `fuel` bounds the recursion by the input length. -/
def parseMembers : Nat → List Char → Option (List (String × String) × List Char)
  | 0, _ => none
  | fuel + 1, cs =>
      match scanStringLit (skipSpaces cs) with
      | none => none
      | some (k, rest1) =>
          match skipSpaces rest1 with
          | ':' :: rest2 =>
              match scanStringLit (skipSpaces rest2) with
              | none => none
              | some (v, rest3) =>
                  match skipSpaces rest3 with
                  | ',' :: rest4 =>
                      match parseMembers fuel rest4 with
                      | some (ms, rem) => some ((k, v) :: ms, rem)
                      | none => none
                  | '}' :: rest4 => some ((k, v) :: [], rest4)
                  | _ => none
          | _ => none

/-- Model of `json.loads` restricted to flat string-to-string objects:
returns the member list, or `none` (a `ValueError`) when the input is not
such an object. -/
def json_loads_flat (s : String) : Option (List (String × String)) :=
  match skipSpaces s.toList with
  | '{' :: rest =>
      match skipSpaces rest with
      | '}' :: rem => if (skipSpaces rem).isEmpty then some [] else none
      | _ =>
          match parseMembers (s.length + 1) rest with
          | some (ms, rem) => if (skipSpaces rem).isEmpty then some ms else none
          | none => none
  | _ => none

/-- `load_json_key` from v13: `try: result_dict = json.loads(data)` —
a `ValueError` is converted to `KeyError`; in the `else` block
`result_dict[key]` raises `KeyError` when the key is absent. -/
def load_json_key (data key : String) : Except PyExn String :=
  match (match json_loads_flat data with
         | some d => Except.ok d
         | none => Except.error PyExn.valueError : Except PyExn (List (String × String))) with
  | .error _ => .error .keyError
  | .ok result_dict =>
      match result_dict.lookup key with
      | some v => .ok v
      | none => .error .keyError

example : json_loads_flat "\x7b\"foo\": \"bar\"\x7d" = some [("foo", "bar")] := by decide
example : json_loads_flat "\x7b\"foo\": bad payload" = none := by decide

/-- C4: the assertions embedded in the cited example cells hold: after
`result = safe_division(1.0, 10**500, True, False)` the value is `0`
(`assert result is 0`); `safe_division(1.0, 0, False, True)` is
`float('inf')`; the three `safe_division_b` assertions of Examples 5–6
hold; `load_json_key('{"foo": "bar"}', 'foo') == 'bar'`; and the two
failing `load_json_key` calls raise `KeyError`, so the narrative's
`assert False` lines are never reached. -/
theorem notebook_asserts_hold :
    safe_division 1 (10 ^ 500) true true false = .ok (.val 0) ∧
    safe_division 1 0 false false true = .ok .inf ∧
    safe_division_b 1 (10 ^ 500) true true false = .ok (.val 0) ∧
    safe_division_b 1 0 false false true = .ok .inf ∧
    load_json_key "\x7b\"foo\": \"bar\"\x7d" "foo" = .ok "bar" ∧
    load_json_key "\x7b\"foo\": \"bar\"\x7d" "does not exist" = .error .keyError ∧
    load_json_key "\x7b\"foo\": bad payload" "foo" = .error .keyError := by
  refine ⟨rfl, ?_, rfl, ?_, rfl, rfl, rfl⟩ <;>
    simp [safe_division, safe_division_b, pyDivide]

/-! ## v51: root exception hierarchy

The class declarations of the notebook: `Error(Exception)`,
`InvalidDensityError(Error)`, `NegativeDensityError(InvalidDensityError)`.
`isinstance` (which governs `except` clause matching) walks the base-class
chain. -/

/-- The exception classes declared in v51 (plus the built-in root). -/
inductive ExnClass where
  | exceptionClass
  | errorClass
  | invalidDensityError
  | negativeDensityError
  deriving DecidableEq, Repr

/-- The declared base class of each class, exactly as in the source:
`class Error(Exception)`, `class InvalidDensityError(Error)`,
`class NegativeDensityError(InvalidDensityError)`. -/
def baseClass : ExnClass → Option ExnClass
  | .exceptionClass => none
  | .errorClass => some .exceptionClass
  | .invalidDensityError => some .errorClass
  | .negativeDensityError => some .invalidDensityError

/-- Subclass test along the base-class chain, with fuel bounding the chain
length (the hierarchy has depth 4). -/
def isSubclass : Nat → ExnClass → ExnClass → Bool
  | 0, _, _ => false
  | fuel + 1, c, h =>
      c = h ||
        match baseClass c with
        | some p => isSubclass fuel p h
        | none => false

/-- `isinstance(e, H)` for an exception of class `c` against handler class
`h`. -/
def isInstanceOf (c h : ExnClass) : Bool := isSubclass 4 c h

/-- `my_module.determine_weight` (Example 3): raises `InvalidDensityError`
when `density <= 0`, otherwise returns `None`. -/
def determine_weight (volume density : Int) : Except ExnClass Unit :=
  if density ≤ 0 then .error .invalidDensityError else .ok ()

/-- `except` dispatch: index of the first handler clause whose class the
raised exception is an instance of. -/
def firstHandler (handlers : List ExnClass) (raised : ExnClass) : Option Nat :=
  handlers.findIdx? (fun h => isInstanceOf raised h)

/-- Example 4 of v51: `weight = 5`; `try: weight =
my_module.determine_weight(1, -1); assert False` with handlers
`except my_module.InvalidDensityError: weight = 0` then
`except my_module.Error as e: logging.error(...)`.  The resulting value of
`weight`. -/
def example4_weight : Int :=
  match determine_weight 1 (-1) with
  | .ok _ => 5
  | .error e =>
      if isInstanceOf e .invalidDensityError then 0
      else if isInstanceOf e .errorClass then 5
      else 5

/-- C5: `determine_weight` raises exactly when `density <= 0`, the raised
exception is `InvalidDensityError` — an instance of the module's root
`Error` class — the handler list `[InvalidDensityError, Error]` catches it
in its first clause, and the Example 4 scenario leaves `weight = 0`. -/
theorem root_exception_insulates_callers :
    (∀ volume density : Int,
        (∃ e, determine_weight volume density = .error e) ↔ density ≤ 0) ∧
    (∀ (volume density : Int) (e : ExnClass),
        determine_weight volume density = .error e →
          e = .invalidDensityError ∧ isInstanceOf e .errorClass = true) ∧
    firstHandler [.invalidDensityError, .errorClass] .invalidDensityError = some 0 ∧
    example4_weight = 0 := by
  refine ⟨?_, ?_, by decide, by decide⟩
  · intro volume density
    constructor
    · rintro ⟨e, he⟩
      by_contra hd
      simp [determine_weight, hd] at he
    · intro hd
      exact ⟨.invalidDensityError, by simp [determine_weight, hd]⟩
  · intro volume density e he
    by_cases hd : density ≤ 0
    · simp [determine_weight, hd] at he
      exact ⟨he.symm, by rw [← he]; decide⟩
    · simp [determine_weight, hd] at he

/-- Witness for C5: at the notebook's call `determine_weight(1, -1)` the
raised exception is `InvalidDensityError`, an instance of `Error`. -/
theorem root_exception_insulates_callers_witness :
    ((∃ e, determine_weight 1 (-1) = .error e) ↔ (-1 : Int) ≤ 0) ∧
    (ExnClass.invalidDensityError = ExnClass.invalidDensityError ∧
      isInstanceOf .invalidDensityError .errorClass = true) :=
  ⟨root_exception_insulates_callers.1 1 (-1),
   root_exception_insulates_callers.2.1 1 (-1) .invalidDensityError
     (by simp [determine_weight])⟩

/-! ## v30: the `@property` Bucket

The Example 7 `Bucket` keeps `max_quota` and `quota_consumed`; `quota` is
a property whose setter (Example 9) distinguishes reset, fill and consume.
Times (`datetime.now()`, `timedelta(seconds=period)`) are modelled as
integers, and `now` is passed to `fill`/`deduct` explicitly.  A failing
`assert` in the setter raises `AssertionError`. -/

structure Bucket where
  period_delta : Int
  reset_time : Int
  max_quota : Int
  quota_consumed : Int
  deriving DecidableEq, Repr

/-- `Bucket.__init__` (Example 7): quota fields start at zero. -/
def Bucket.init (period now : Int) : Bucket :=
  { period_delta := period, reset_time := now, max_quota := 0, quota_consumed := 0 }

/-- The `quota` property getter (Example 8). -/
def Bucket.quota (b : Bucket) : Int := b.max_quota - b.quota_consumed

/-- The `quota` property setter (Example 9): `amount == 0` resets for a new
period; `delta < 0` fills for the new period (asserting nothing was
consumed); otherwise quota is being consumed (asserting
`max_quota >= quota_consumed`). -/
def Bucket.setQuota (b : Bucket) (amount : Int) : Except PyExn Bucket :=
  let delta := b.max_quota - amount
  if amount = 0 then
    .ok { b with quota_consumed := 0, max_quota := 0 }
  else if delta < 0 then
    if b.quota_consumed = 0 then .ok { b with max_quota := amount }
    else .error .assertionError
  else
    if b.max_quota ≥ b.quota_consumed then
      .ok { b with quota_consumed := b.quota_consumed + delta }
    else .error .assertionError

/-- `fill(bucket, amount)` (Example 2): reset the quota when the period
elapsed, then `bucket.quota += amount` (getter followed by setter). -/
def fill (now : Int) (b : Bucket) (amount : Int) : Except PyExn Bucket := do
  let b1 ←
    if now - b.reset_time > b.period_delta then do
      let t ← Bucket.setQuota b 0
      pure { t with reset_time := now }
    else
      pure b
  Bucket.setQuota b1 (b1.quota + amount)

/-- `deduct(bucket, amount)` (Example 3): `False` when the period elapsed
or the quota is insufficient, otherwise `bucket.quota -= amount` and
`True`. -/
def deduct (now : Int) (b : Bucket) (amount : Int) : Except PyExn (Bool × Bucket) := do
  if now - b.reset_time > b.period_delta then
    pure (false, b)
  else if b.quota - amount < 0 then
    pure (false, b)
  else do
    let b1 ← Bucket.setQuota b (b.quota - amount)
    pure (true, b1)

/-- C1: the toy `Bucket` carries no persisting state invariant.  The
candidate predicate `max_quota >= quota_consumed >= 0` is established by
the constructor, and the state `max_quota=100, quota_consumed=99` that
satisfies it is reached by the notebook's own `fill`/`deduct` calls — yet
the predicate is not preserved by every quota assignment: assigning
`bucket.quota = 50` from that state succeeds (both setter asserts pass)
and leaves `quota_consumed = 149 > max_quota = 100`. -/
theorem bucket_has_no_persistent_invariant :
    (0 ≤ (Bucket.init 60 0).quota_consumed ∧
      (Bucket.init 60 0).quota_consumed ≤ (Bucket.init 60 0).max_quota) ∧
    fill 0 (Bucket.init 60 0) 100 = .ok ⟨60, 0, 100, 0⟩ ∧
    deduct 0 ⟨60, 0, 100, 0⟩ 99 = .ok (true, ⟨60, 0, 100, 99⟩) ∧
    Bucket.setQuota ⟨60, 0, 100, 99⟩ 50 = .ok ⟨60, 0, 100, 149⟩ ∧
    ¬ (∀ (b b' : Bucket) (amount : Int),
        (0 ≤ b.quota_consumed ∧ b.quota_consumed ≤ b.max_quota) →
        Bucket.setQuota b amount = .ok b' →
        (0 ≤ b'.quota_consumed ∧ b'.quota_consumed ≤ b'.max_quota)) := by
  refine ⟨by decide, ?_, ?_, ?_, ?_⟩
  · simp [fill, Bucket.init, Bucket.setQuota, Bucket.quota]
  · simp [deduct, Bucket.setQuota, Bucket.quota]
  · simp [Bucket.setQuota]
  · intro h
    have := h ⟨60, 0, 100, 99⟩ ⟨60, 0, 100, 149⟩ 50 (by decide)
      (by simp [Bucket.setQuota])
    simp at this

/-! ## The pickle/copyreg notebook: versioned `GameState` serialization

A pickled `GameState` payload produced through `copyreg` is the kwargs
dictionary handed to `unpickle_game_state`, modelled as an association
list.  The final class (Example 16) has fields `level`, `points`, `magic`
with defaults `0`, `0`, `5`; `GameState(**kwargs)` raises `TypeError` on
an unexpected keyword such as the removed `lives`. -/

/-- The Example 16 `GameState` class: `lives` has been removed. -/
structure GameState where
  level : Int
  points : Int
  magic : Int
  deriving DecidableEq, Repr

/-- `GameState(**kwargs)` for the Example 16 constructor
`__init__(self, level=0, points=0, magic=5)`: unexpected keywords raise
`TypeError`, missing ones take their defaults. -/
def GameState.ofKwargs (kwargs : List (String × Int)) : Except PyExn GameState :=
  if kwargs.all (fun kv => kv.1 = "level" || kv.1 = "points" || kv.1 = "magic") then
    .ok { level := ((kwargs.lookup "level").getD 0),
          points := ((kwargs.lookup "points").getD 0),
          magic := ((kwargs.lookup "magic").getD 5) }
  else .error .typeError

/-- `pickle_game_state` (Example 18, version 2): the serialized payload is
the state's `__dict__` plus `version = 2`. -/
def pickle_game_state (s : GameState) : List (String × Int) :=
  [("level", s.level), ("points", s.points), ("magic", s.magic), ("version", 2)]

/-- `unpickle_game_state` (Example 19): `version = kwargs.pop('version', 1)`;
version-1 payloads have their `lives` entry popped (`KeyError` if absent,
as `dict.pop` with no default); then `GameState(**kwargs)`. -/
def unpickle_game_state (kwargs : List (String × Int)) : Except PyExn GameState :=
  let version := (kwargs.lookup "version").getD 1
  let kwargs1 := kwargs.filter (fun kv => kv.1 ≠ "version")
  if version = 1 then
    match kwargs1.lookup "lives" with
    | none => .error .keyError
    | some _ => GameState.ofKwargs (kwargs1.filter (fun kv => kv.1 ≠ "lives"))
  else
    GameState.ofKwargs kwargs1

/-- The payload pickled in Example 13 under the version-1 format: the
`__dict__` of the old `GameState` (`level`, `lives`, `points` fields, with
`points` already incremented to 1000), with no version entry. -/
def oldSerializedState : List (String × Int) :=
  [("level", 0), ("lives", 4), ("points", 1000)]

/-- Counterexample to C2: the serialization notebook does define a
persisted format designed to be read back later across program changes.
The version-1 payload written before `lives` was removed from `GameState`
deserializes under the changed program to a valid new `GameState` — while
passing the same old payload directly to the new constructor raises
`TypeError` — which is exactly a serialized object format intended to
survive changes to the program. -/
theorem persisted_game_state_format_exists :
    unpickle_game_state oldSerializedState =
      .ok { level := 0, points := 1000, magic := 5 } ∧
    GameState.ofKwargs oldSerializedState = .error .typeError := by
  constructor <;> rfl

/-- C2 as amended: every file the example code writes is a small scratch
file confined to its own notebook, but the pickle/copyreg notebook does
write data designed to be read back later: `game_state.bin` is written and
re-read after `GameState` is redefined, and the version-2
`pickle_game_state` / `unpickle_game_state` pair forms a round-tripping
serialized format that also accepts old version-1 payloads. -/
theorem game_state_format_roundtrip :
    (∀ s : GameState, unpickle_game_state (pickle_game_state s) = .ok s) ∧
    unpickle_game_state oldSerializedState =
      .ok { level := 0, points := 1000, magic := 5 } := by
  constructor
  · intro s
    simp [unpickle_game_state, pickle_game_state, GameState.ofKwargs, List.lookup]
  · rfl

/-! ## The default-argument notebook: `decode`

Python dictionaries are mutable objects; identity matters here (`assert
foo is bar`), so dictionaries live in an explicit store: an address is an
index into the list of allocated dictionaries, in allocation order.
`json.loads` is abstracted as a `parse` function returning the parsed
dictionary or `none` for a `ValueError`. -/

/-- A Python dict of the scenario: string keys, int values. -/
abbrev PyDict := List (String × Int)

/-- The dictionary store: address `a` is the dict allocated `a`-th. -/
abbrev Store := List PyDict

/-- Allocate a new dictionary; returns the store and the fresh address. -/
def alloc (st : Store) (d : PyDict) : Store × Nat := (st ++ [d], st.length)

/-- `d[k] = v`: overwrite the entry for `k` in place, or append it. -/
def dictInsert : PyDict → String → Int → PyDict
  | [], k, v => [(k, v)]
  | (k', v') :: rest, k, v =>
      if k' = k then (k', v) :: rest else (k', v') :: dictInsert rest k v

/-- `st[a][k] = v` on the store. -/
def storeSet (st : Store) (a : Nat) (k : String) (v : Int) : Store :=
  match st[a]? with
  | some d => st.set a (dictInsert d k v)
  | none => st

/-- The buggy `decode` (`default={}`): the default dictionary was
allocated once at module load time at address `defaultAddr`; a successful
`json.loads` allocates the parsed dict, a failing one returns the shared
default's address. -/
def decode_shared_default (parse : String → Option PyDict) (defaultAddr : Nat)
    (st : Store) (data : String) : Store × Nat :=
  match parse data with
  | some d => alloc st d
  | none => (st, defaultAddr)

/-- The fixed `decode` (`default=None`): `if default is None: default = {}`
allocates a fresh empty dictionary on every call, returned when
`json.loads` fails. -/
def decode_fresh_default (parse : String → Option PyDict)
    (st : Store) (data : String) : Store × Nat :=
  let (st1, dflt) := alloc st []
  match parse data with
  | some d => alloc st1 d
  | none => (st1, dflt)

/-- The notebook's buggy-decode scenario: module load allocates the shared
default; `foo = decode('bad data')`; `foo['stuff'] = 5`;
`bar = decode('also bad')`; `bar['meep'] = 1`.  Returns the final store
and the addresses `foo` and `bar`. -/
def buggyScenario (parse : String → Option PyDict) : Store × Nat × Nat :=
  let (st0, dflt) := alloc [] []
  let (st1, foo) := decode_shared_default parse dflt st0 "bad data"
  let st2 := storeSet st1 foo "stuff" 5
  let (st3, bar) := decode_shared_default parse dflt st2 "also bad"
  let st4 := storeSet st3 bar "meep" 1
  (st4, foo, bar)

/-- The dictionary `bar` points at immediately after the second buggy
`decode` call, before `bar['meep'] = 1` runs. -/
def buggySecondResult (parse : String → Option PyDict) : PyDict :=
  let (st0, dflt) := alloc [] []
  let (st1, foo) := decode_shared_default parse dflt st0 "bad data"
  let st2 := storeSet st1 foo "stuff" 5
  let (st3, bar) := decode_shared_default parse dflt st2 "also bad"
  (st3[bar]?).getD []

/-- The notebook's fixed-decode scenario, same steps with
`decode_fresh_default`. -/
def fixedScenario (parse : String → Option PyDict) : Store × Nat × Nat :=
  let (st1, foo) := decode_fresh_default parse [] "bad data"
  let st2 := storeSet st1 foo "stuff" 5
  let (st3, bar) := decode_fresh_default parse st2 "also bad"
  let st4 := storeSet st3 bar "meep" 1
  (st4, foo, bar)

/-- C10: when both inputs fail to parse, the buggy `decode` returns the
one shared default dictionary — `foo is bar`, the second call's result
already contains `'stuff'`, and both names end up at
`{'stuff': 5, 'meep': 1}` — while the fixed `decode` returns independent
fresh dictionaries ending up at `{'stuff': 5}` and `{'meep': 1}`. -/
theorem decode_default_sharing (parse : String → Option PyDict)
    (h1 : parse "bad data" = none) (h2 : parse "also bad" = none) :
    (buggyScenario parse).2.1 = (buggyScenario parse).2.2 ∧
    (buggySecondResult parse).lookup "stuff" = some 5 ∧
    ((buggyScenario parse).1[(buggyScenario parse).2.1]?).getD [] =
      [("stuff", 5), ("meep", 1)] ∧
    (fixedScenario parse).2.1 ≠ (fixedScenario parse).2.2 ∧
    ((fixedScenario parse).1[(fixedScenario parse).2.1]?).getD [] = [("stuff", 5)] ∧
    ((fixedScenario parse).1[(fixedScenario parse).2.2]?).getD [] = [("meep", 1)] := by
  refine ⟨?_, ?_, ?_, ?_, ?_, ?_⟩ <;>
    simp [buggyScenario, buggySecondResult, fixedScenario, decode_shared_default,
      decode_fresh_default, alloc, storeSet, dictInsert, h1, h2]

/-- Witness for C10: the claim's conclusions at a concrete parser that
rejects every input (as `json.loads` does on the notebook's two strings). -/
theorem decode_default_sharing_witness :
    (buggyScenario (fun _ => none)).2.1 = (buggyScenario (fun _ => none)).2.2 ∧
    (buggySecondResult (fun _ => none)).lookup "stuff" = some 5 ∧
    ((buggyScenario (fun _ => none)).1[(buggyScenario (fun _ => none)).2.1]?).getD [] =
      [("stuff", 5), ("meep", 1)] ∧
    (fixedScenario (fun _ => none)).2.1 ≠ (fixedScenario (fun _ => none)).2.2 ∧
    ((fixedScenario (fun _ => none)).1[(fixedScenario (fun _ => none)).2.1]?).getD [] =
      [("stuff", 5)] ∧
    ((fixedScenario (fun _ => none)).1[(fixedScenario (fun _ => none)).2.2]?).getD [] =
      [("meep", 1)] :=
  decode_default_sharing (fun _ => none) rfl rfl

/-! ## v03: text mode versus binary mode writes

Python 3 io semantics: a handle from `open(path, 'w')` accepts only `str`
in `write()`, a handle from `open(path, 'wb')` accepts only `bytes`;
anything else raises `TypeError`.  `os.urandom(10)` is an arbitrary bytes
value. -/

/-- A value passed to `write()`: a `str` or a `bytes`. -/
inductive PyData where
  | str (s : String)
  | bytes (bs : List Nat)
  deriving DecidableEq, Repr

/-- The mode a file was opened with: `'w'` or `'wb'`. -/
inductive FileMode where
  | text
  | binary
  deriving DecidableEq, Repr

/-- `f.write(d)` under Python 3 io semantics. -/
def fileWrite (mode : FileMode) (d : PyData) : Except PyExn Unit :=
  match mode, d with
  | .text, .str _ => .ok ()
  | .text, .bytes _ => .error .typeError
  | .binary, .bytes _ => .ok ()
  | .binary, .str _ => .error .typeError

/-- Which branch of v03's `try/except/else` cell runs for a given write:
the `except` branch (logging the exception) or the `else` branch
(`assert False`). -/
inductive CellBranch where
  | exceptBranch (e : PyExn)
  | elseBranch
  deriving DecidableEq, Repr

/-- The v03 cell: `with open('random.bin', 'w') as f: f.write(payload)`
inside `try`, with `except: logging.exception(...)` and
`else: assert False`. -/
def v03_write_cell (mode : FileMode) (payload : PyData) : CellBranch :=
  match fileWrite mode payload with
  | .error e => .exceptBranch e
  | .ok _ => .elseBranch

/-- C6: writing the bytes of `os.urandom(10)` to a file opened in text
mode `'w'` raises `TypeError` — the `except` branch runs and
`assert False` is never reached — while the same bytes written to a file
opened in binary mode `'wb'` succeed. -/
theorem text_mode_write_bytes_raises (bs : List Nat) :
    v03_write_cell .text (.bytes bs) = .exceptBranch .typeError ∧
    fileWrite .binary (.bytes bs) = .ok () :=
  ⟨rfl, rfl⟩

/-! ## Scratch files across notebooks

Every `open(...)` in the repository, by notebook: which file names each
notebook writes and which it reads.  A notebook run is modelled against a
file system (a map from names to contents): it performs its writes and
then its observable behaviour, as far as files go, is the contents it
reads back. -/

/-- A notebook's file usage: its name, the file names it writes, the file
names it reads. -/
structure Notebook where
  name : String
  writes : List String
  reads : List String
  deriving DecidableEq, Repr

/-- The file usage of all 13 source files, read off from their `open`
calls (notebooks without file IO have empty lists). -/
def notebooks : List Notebook :=
  [⟨"v03_bytes_str_unicode", ["random.bin"], []⟩,
   ⟨"v09_generator_expression_for_large_comprehensions", ["my_file.txt"], ["my_file.txt"]⟩,
   ⟨"v13_take_advantage_of_each_block_in_try_except_else_finally",
     ["random_data.txt", "random_data.json"], ["random_data.txt", "random_data.json"]⟩,
   ⟨"v16_Consider_Generators_Instead_of_Returning_lists", ["address.txt"], ["address.txt"]⟩,
   ⟨"v18_Reduce_visual_noise_with_Variable_Positional_Arguements", [], []⟩,
   ⟨"v30_property_instead_of_Refactoring_Attributes", [], []⟩,
   ⟨"v37_Use_Threads_for_Blocking_IO_Avoid_for_Parallelism", [], []⟩,
   ⟨"v43_Consider_contextlib_and_with_Statements", ["my_output.txt"], []⟩,
   ⟨"v51_Define_a_Root_Exception_to_Insulate_Callers_from_APIs", [], []⟩,
   ⟨"v52_Know_How_to_Break_Circular_Dependencies", [], []⟩,
   ⟨"unnamed_part_000", [], []⟩,
   ⟨"unnamed_part_001", [], []⟩,
   ⟨"unnamed_part_002", ["game_state.bin"], ["game_state.bin"]⟩]

/-- Write one file into a file system. -/
def writeName (fs : String → Option String) (name content : String) :
    String → Option String :=
  fun n => if n = name then some content else fs n

/-- Perform a notebook's writes in order (contents stand in as the file
name itself; only which names hold notebook-written data matters here). -/
def runWrites (fs : String → Option String) (ws : List String) :
    String → Option String :=
  ws.foldl (fun acc w => writeName acc w w) fs

/-- A notebook's file-level observable behaviour over an initial file
system: the contents it reads back after its own writes. -/
def Notebook.observe (fs : String → Option String) (nb : Notebook) :
    List (Option String) :=
  nb.reads.map (runWrites fs nb.writes)

theorem runWrites_not_mem (ws : List String) :
    ∀ (fs : String → Option String) (r : String), r ∉ ws → runWrites fs ws r = fs r := by
  induction ws with
  | nil => intro fs r _; rfl
  | cons w rest ih =>
      intro fs r hr
      have hw : r ≠ w := fun h => hr (h ▸ List.mem_cons_self w rest)
      have hrest : r ∉ rest := fun h => hr (List.mem_cons_of_mem w h)
      simpa [runWrites, writeName, hw] using ih (writeName fs w w) r hrest

theorem runWrites_mem (ws : List String) :
    ∀ (fs1 fs2 : String → Option String) (r : String), r ∈ ws →
      runWrites fs1 ws r = runWrites fs2 ws r := by
  induction ws with
  | nil => intro fs1 fs2 r hr; cases hr
  | cons w rest ih =>
      intro fs1 fs2 r hr
      by_cases hrest : r ∈ rest
      · exact ih (writeName fs1 w w) (writeName fs2 w w) r hrest
      · have hw : r = w := by
          rcases List.mem_cons.mp hr with h | h
          · exact h
          · exact absurd h hrest
        rw [show runWrites fs1 (w :: rest) = runWrites (writeName fs1 w w) rest from rfl,
          runWrites_not_mem rest _ r hrest,
          show runWrites fs2 (w :: rest) = runWrites (writeName fs2 w w) rest from rfl,
          runWrites_not_mem rest _ r hrest]
        simp [writeName, hw]

/-- `true` iff some notebook writes a file that a different notebook reads
or writes. -/
def crossNotebookFileUse : Bool :=
  notebooks.any (fun a =>
    notebooks.any (fun b =>
      a.name ≠ b.name &&
        a.writes.any (fun f => b.reads.contains f || b.writes.contains f)))

/-- C7: notebooks are standalone and non-interacting: no file written by
one notebook is read (or written) by a different notebook, and every
notebook's file-level observable behaviour is identical over any two
initial file systems — in particular whether or not any other notebook
has run first (two-run independence). -/
theorem notebooks_two_run_independent :
    crossNotebookFileUse = false ∧
    ∀ (fs1 fs2 : String → Option String) (nb : Notebook), nb ∈ notebooks →
      Notebook.observe fs1 nb = Notebook.observe fs2 nb := by
  refine ⟨by decide, ?_⟩
  intro fs1 fs2 nb hnb
  have hsub : ∀ r ∈ nb.reads, r ∈ nb.writes := by
    fin_cases hnb <;> decide
  unfold Notebook.observe
  exact List.map_congr_left (fun r hr => runWrites_mem nb.writes fs1 fs2 r (hsub r hr))

/-- Witness for C7: the v09 notebook reads the same contents from
`my_file.txt` over an empty file system and over one where every file
already holds stale data. -/
theorem notebooks_two_run_independent_witness :
    Notebook.observe (fun _ => none)
        ⟨"v09_generator_expression_for_large_comprehensions", ["my_file.txt"], ["my_file.txt"]⟩ =
      Notebook.observe (fun _ => some "stale")
        ⟨"v09_generator_expression_for_large_comprehensions", ["my_file.txt"], ["my_file.txt"]⟩ :=
  notebooks_two_run_independent.2 (fun _ => none) (fun _ => some "stale") _ (by decide)

end EffectivePython
